import Mathlib

set_option maxRecDepth 100000

/-!
Verification of the medium-discord-alerts pipeline (main.py).

The embedding below models the core of the program, faithfully to the source:
stable entry identity (`stable_id`, including the SHA-256 fallback),
sent-state load/save (`load_sent`, `save_sent`), fetch-and-filter
(`fetch_new_entries`), the per-entry delivery loop with failure isolation
(`deliverLoop`, `send_updates`), and the job coordinator (`main_model`).
Python machine behaviour that matters for the claims is made explicit:
string truthiness (`optTruthy`), the exception-class hierarchy in which
SystemExit is not a subclass of Exception (`PyError.isExceptionClass`),
and delivery outcomes as an oracle from entry to success.
-/

/-! ## SHA-256 over byte lists, as used by Python hashlib in stable_id. -/

/-- Truncation of a natural number to a 32-bit word. -/
def w32 (x : Nat) : Nat := x % 4294967296

/-- Right rotation of a 32-bit word by n bits. -/
def rotr32 (n x : Nat) : Nat := w32 ((x >>> n) ||| (x <<< (32 - n)))

/-- SHA-256 Ch function. -/
def sha2Ch (x y z : Nat) : Nat := (x &&& y) ^^^ ((x ^^^ 4294967295) &&& z)

/-- SHA-256 Maj function. -/
def sha2Maj (x y z : Nat) : Nat := (x &&& y) ^^^ (x &&& z) ^^^ (y &&& z)

/-- SHA-256 big sigma 0. -/
def bsig0 (x : Nat) : Nat := rotr32 2 x ^^^ rotr32 13 x ^^^ rotr32 22 x

/-- SHA-256 big sigma 1. -/
def bsig1 (x : Nat) : Nat := rotr32 6 x ^^^ rotr32 11 x ^^^ rotr32 25 x

/-- SHA-256 small sigma 0. -/
def ssig0 (x : Nat) : Nat := rotr32 7 x ^^^ rotr32 18 x ^^^ (x >>> 3)

/-- SHA-256 small sigma 1. -/
def ssig1 (x : Nat) : Nat := rotr32 17 x ^^^ rotr32 19 x ^^^ (x >>> 10)

/-- SHA-256 round constants (FIPS 180-4, in decimal). -/
def sha2K : List Nat :=
  [1116352408, 1899447441, 3049323471, 3921009573, 961987163, 1508970993,
   2453635748, 2870763221, 3624381080, 310598401, 607225278, 1426881987,
   1925078388, 2162078206, 2614888103, 3248222580, 3835390401, 4022224774,
   264347078, 604807628, 770255983, 1249150122, 1555081692, 1996064986,
   2554220882, 2821834349, 2952996808, 3210313671, 3336571891, 3584528711,
   113926993, 338241895, 666307205, 773529912, 1294757372, 1396182291,
   1695183700, 1986661051, 2177026350, 2456956037, 2730485921, 2820302411,
   3259730800, 3345764771, 3516065817, 3600352804, 4094571909, 275423344,
   430227734, 506948616, 659060556, 883997877, 958139571, 1322822218,
   1537002063, 1747873779, 1955562222, 2024104815, 2227730452, 2361852424,
   2428436474, 2756734187, 3204031479, 3329325298]

/-- SHA-256 initial hash state (FIPS 180-4, in decimal). -/
def sha2H0 : List Nat :=
  [1779033703, 3144134277, 1013904242, 2773480762, 1359893119,
   2600822924, 528734635, 1541459225]

/-- Big-endian 32-bit word from four bytes of a block at word index i. -/
def wordAt (block : List Nat) (i : Nat) : Nat :=
  (block.getD (4 * i) 0) <<< 24 ||| (block.getD (4 * i + 1) 0) <<< 16 |||
  (block.getD (4 * i + 2) 0) <<< 8 ||| (block.getD (4 * i + 3) 0)

/-- The 64-word message schedule of one 64-byte block. -/
def sha2Schedule (block : List Nat) : List Nat :=
  let w16 := (List.range 16).map (wordAt block)
  (List.range 48).foldl
    (fun ws _ =>
      let n := ws.length
      ws ++ [w32 (ssig1 (ws.getD (n - 2) 0) + ws.getD (n - 7) 0 +
                  ssig0 (ws.getD (n - 15) 0) + ws.getD (n - 16) 0)])
    w16

/-- One SHA-256 compression step at round i. -/
def sha2Round (w : List Nat) (st : Nat × Nat × Nat × Nat × Nat × Nat × Nat × Nat) (i : Nat) :
    Nat × Nat × Nat × Nat × Nat × Nat × Nat × Nat :=
  match st with
  | (a, b, c, d, e, f, g, h) =>
    let t1 := w32 (h + bsig1 e + sha2Ch e f g + sha2K.getD i 0 + w.getD i 0)
    let t2 := w32 (bsig0 a + sha2Maj a b c)
    (w32 (t1 + t2), a, b, c, w32 (d + t1), e, f, g)

/-- SHA-256 compression of one 64-byte block into the running hash state. -/
def sha2Compress (h : List Nat) (block : List Nat) : List Nat :=
  let w := sha2Schedule block
  let init := (h.getD 0 0, h.getD 1 0, h.getD 2 0, h.getD 3 0,
               h.getD 4 0, h.getD 5 0, h.getD 6 0, h.getD 7 0)
  match (List.range 64).foldl (sha2Round w) init with
  | (a, b, c, d, e, f, g, hh) =>
    [w32 (h.getD 0 0 + a), w32 (h.getD 1 0 + b), w32 (h.getD 2 0 + c), w32 (h.getD 3 0 + d),
     w32 (h.getD 4 0 + e), w32 (h.getD 5 0 + f), w32 (h.getD 6 0 + g), w32 (h.getD 7 0 + hh)]

/-- SHA-256 padding: append 0x80, zeros, and the 64-bit big-endian bit length. -/
def sha2Pad (msg : List Nat) : List Nat :=
  let L := msg.length
  let z := (119 - L % 64) % 64
  let bits := 8 * L
  msg ++ [0x80] ++ List.replicate z 0 ++
    [(bits >>> 56) % 256, (bits >>> 48) % 256, (bits >>> 40) % 256, (bits >>> 32) % 256,
     (bits >>> 24) % 256, (bits >>> 16) % 256, (bits >>> 8) % 256, bits % 256]

/-- The SHA-256 digest of a byte list, as eight 32-bit words. -/
def sha256Words (msg : List Nat) : List Nat :=
  let padded := sha2Pad msg
  let nBlocks := padded.length / 64
  (List.range nBlocks).foldl
    (fun h i => sha2Compress h ((padded.drop (64 * i)).take 64)) sha2H0

/-- Lower-case hex digit for a nibble. -/
def hexDigit (d : Nat) : Char :=
  if d < 10 then Char.ofNat (48 + d) else Char.ofNat (87 + d)

/-- Eight-character lower-case hex rendering of a 32-bit word. -/
def hex8 (x : Nat) : String :=
  String.mk ((List.range 8).map (fun i => hexDigit ((x >>> (28 - 4 * i)) % 16)))

/-- Hex-encoded SHA-256 digest of a byte list (Python hashlib.sha256(...).hexdigest()). -/
def sha256hex (msg : List Nat) : String :=
  String.join ((sha256Words msg).map hex8)

/-! ## UTF-8 encoding of strings, as Python str.encode("utf-8"). -/

/-- UTF-8 bytes of one code point. -/
def utf8EncodeCharNat (c : Char) : List Nat :=
  let n := c.toNat
  if n < 0x80 then [n]
  else if n < 0x800 then [0xc0 ||| (n >>> 6), 0x80 ||| (n &&& 0x3f)]
  else if n < 0x10000 then
    [0xe0 ||| (n >>> 12), 0x80 ||| ((n >>> 6) &&& 0x3f), 0x80 ||| (n &&& 0x3f)]
  else
    [0xf0 ||| (n >>> 18), 0x80 ||| ((n >>> 12) &&& 0x3f),
     0x80 ||| ((n >>> 6) &&& 0x3f), 0x80 ||| (n &&& 0x3f)]

/-- UTF-8 bytes of a string. -/
def utf8Bytes (s : String) : List Nat :=
  s.data.foldr (fun c acc => utf8EncodeCharNat c ++ acc) []

/-- Known-answer test: SHA-256 of "abc" matches the FIPS 180 test vector. -/
theorem sha256hex_abc :
    sha256hex (utf8Bytes "abc") =
      "ba7816bf8f01cfea414140de5dae2223b00361a396177a9cb410ff61f20015ad" := by
  rfl

/-- Known-answer test: SHA-256 of the empty message. -/
theorem sha256hex_empty :
    sha256hex [] =
      "e3b0c44298fc1c149afbf4c8996fb92427ae41e4649b934ca495991b7852b855" := by
  rfl

/-! ## Data model: feed entries and Python-style field access. -/

/-- A feed entry as a record of the fields main.py reads from the feedparser
dict: id, guid, title, link, published, updated. A missing dict key is none. -/
structure FeedEntry where
  id : Option String
  guid : Option String
  title : Option String
  link : Option String
  published : Option String
  updated : Option String
deriving DecidableEq, Repr

/-- Python truthiness of an optional string: None and the empty string are falsy. -/
def optTruthy : Option String → Bool
  | none => false
  | some s => s ≠ ""

/-- The Python expression a or b on optional strings: b whenever a is falsy. -/
def pyOr (a b : Option String) : Option String :=
  if optTruthy a then a else b

/-- stable_id from main.py: prefer entry.get("id") or entry.get("guid") when
truthy; otherwise the hex SHA-256 of the UTF-8 bytes of title + "|" + link,
with missing title and link defaulting to the empty string. -/
def stable_id (e : FeedEntry) : String :=
  let guid := pyOr e.id e.guid
  if optTruthy guid then guid.getD ""
  else
    let title := e.title.getD ""
    let link := e.link.getD ""
    sha256hex (utf8Bytes (title ++ "|" ++ link))

/-- The provider id that stable_id uses verbatim, when there is one. -/
def providerId (e : FeedEntry) : Option String :=
  let guid := pyOr e.id e.guid
  if optTruthy guid then guid else none

/-! ## Python sorted() on strings: code-point lexicographic order. -/

/-- Code-point lexicographic comparison of char lists: Python str order. -/
def charsLe : List Char → List Char → Bool
  | [], _ => true
  | _ :: _, [] => false
  | a :: as, b :: bs =>
    decide (a.toNat < b.toNat) || (decide (a.toNat = b.toNat) && charsLe as bs)

/-- The total order Python sorted() uses on strings: code-point lexicographic. -/
def pyStrLe (a b : String) : Prop := charsLe a.data b.data = true

instance : DecidableRel pyStrLe := fun _ _ => instDecidableEqBool _ _

theorem charToNat_inj {a b : Char} (h : a.toNat = b.toNat) : a = b :=
  Char.ext (UInt32.ext h)

theorem charsLe_total : ∀ a b : List Char, charsLe a b = true ∨ charsLe b a = true
  | [], _ => Or.inl rfl
  | _ :: _, [] => Or.inr rfl
  | a :: as, b :: bs => by
    simp only [charsLe, Bool.or_eq_true, Bool.and_eq_true, decide_eq_true_eq]
    rcases Nat.lt_trichotomy a.toNat b.toNat with h | h | h
    · exact Or.inl (Or.inl h)
    · rcases charsLe_total as bs with ih | ih
      · exact Or.inl (Or.inr ⟨h, ih⟩)
      · exact Or.inr (Or.inr ⟨h.symm, ih⟩)
    · exact Or.inr (Or.inl h)

theorem charsLe_antisymm : ∀ {a b : List Char},
    charsLe a b = true → charsLe b a = true → a = b
  | [], [], _, _ => rfl
  | [], _ :: _, _, h => by simp [charsLe] at h
  | _ :: _, [], h, _ => by simp [charsLe] at h
  | a :: as, b :: bs, h1, h2 => by
    simp only [charsLe, Bool.or_eq_true, Bool.and_eq_true, decide_eq_true_eq] at h1 h2
    rcases h1 with h1 | ⟨he1, h1⟩
    · rcases h2 with h2 | ⟨he2, h2⟩
      · omega
      · omega
    · rcases h2 with h2 | ⟨he2, h2⟩
      · omega
      · have : a = b := charToNat_inj he1
        subst this
        exact congrArg (a :: ·) (charsLe_antisymm h1 h2)

theorem charsLe_trans : ∀ {a b c : List Char},
    charsLe a b = true → charsLe b c = true → charsLe a c = true
  | [], _, _, _, _ => rfl
  | _ :: _, [], _, h, _ => by simp [charsLe] at h
  | _ :: _, _ :: _, [], _, h => by simp [charsLe] at h
  | a :: as, b :: bs, c :: cs, h1, h2 => by
    simp only [charsLe, Bool.or_eq_true, Bool.and_eq_true, decide_eq_true_eq] at h1 h2 ⊢
    rcases h1 with h1 | ⟨he1, h1⟩
    · rcases h2 with h2 | ⟨he2, h2⟩
      · exact Or.inl (Nat.lt_trans h1 h2)
      · exact Or.inl (he2 ▸ h1)
    · rcases h2 with h2 | ⟨he2, h2⟩
      · exact Or.inl (he1 ▸ h2)
      · exact Or.inr ⟨he1.trans he2, charsLe_trans h1 h2⟩

instance : IsTotal String pyStrLe := ⟨fun a b => charsLe_total a.data b.data⟩

instance : IsTrans String pyStrLe := ⟨fun _ _ _ h1 h2 => charsLe_trans h1 h2⟩

instance : IsAntisymm String pyStrLe :=
  ⟨fun a b h1 h2 => by
    cases a; cases b
    exact congrArg String.mk (charsLe_antisymm h1 h2)⟩

/-- Python sorted() on the underlying multiset of a string set: the sorted
list of its elements, well defined because sorting any permutation of the
elements yields the same sorted list. -/
def pySorted (s : Multiset String) : List String :=
  Quot.liftOn s (fun l => List.insertionSort pyStrLe l) fun _ _ h =>
    List.eq_of_perm_of_sorted
      ((List.perm_insertionSort _ _).trans (h.trans (List.perm_insertionSort _ _).symm))
      (List.sorted_insertionSort _ _) (List.sorted_insertionSort _ _)

theorem pySorted_coe (s : Multiset String) : (pySorted s : Multiset String) = s :=
  Quot.inductionOn s fun l => Quot.sound (List.perm_insertionSort _ l)

theorem pySorted_val_toFinset (s : Finset String) : (pySorted s.1).toFinset = s := by
  have h1 : (pySorted s.1).toFinset = ((pySorted s.1 : Multiset String)).toFinset := rfl
  rw [h1, pySorted_coe]
  exact Finset.val_toFinset s

/-! ## Sent-state store: load_sent and save_sent. -/

/-- Observable states of the persisted state file: absent, present but failing
json.load or the subsequent set(...) conversion, or parsed as a record whose
sent_ids field is the given list (none when the key is missing, in which case
data.get falls back to the empty list). -/
inductive StateFile where
  | absent
  | unparsable
  | parsed (sent_ids : Option (List String))
deriving DecidableEq, Repr

/-- load_sent from main.py: empty set when the file is absent; empty set on any
read or parse error; otherwise the set of strings in the sent_ids field,
defaulting to the empty list when the field is missing. -/
def load_sent (STATE_FILE : StateFile) : Finset String :=
  match STATE_FILE with
  | .absent => ∅
  | .unparsable => ∅
  | .parsed none => ∅
  | .parsed (some l) => l.toFinset

/-- save_sent from main.py: the file content written is the record whose
sent_ids field is sorted(list(sent_ids)). -/
def save_sent (sent_ids : Finset String) : List String :=
  pySorted sent_ids.1

/-- The state file as the next run sees it: unchanged when nothing was written,
else parsed with the written list. -/
def updateFile (file : StateFile) (saved : Option (List String)) : StateFile :=
  match saved with
  | none => file
  | some l => .parsed (some l)

/-! ## Fetch, filter and the delivery loop. -/

/-- fetch_new_entries from main.py, with the already-retrieved feed entry list
standing for feedparser.parse(feed_url).entries and MAX_POSTS passed explicitly:
truncate to the first MAX_POSTS entries, drop entries whose stable_id is in
sent_ids, then reverse so delivery goes oldest to newest. -/
def fetch_new_entries (MAX_POSTS : Nat) (feedEntries : List FeedEntry)
    (sent_ids : Finset String) : List FeedEntry :=
  let entries := feedEntries.take MAX_POSTS
  let new_entries := entries.filter (fun e => decide (stable_id e ∉ sent_ids))
  new_entries.reverse

/-- The for-loop of send_updates: each entry in turn is attempted against the
delivery oracle deliverOk (post_to_discord succeeding or raising); on success
the entry is recorded and its stable_id added to sent_ids; on failure the error
is logged and the loop continues with sent_ids unchanged. Returns the
successfully delivered entries in delivery order and the final sent_ids. -/
def deliverLoop (deliverOk : FeedEntry → Bool) :
    List FeedEntry → Finset String → List FeedEntry × Finset String
  | [], sent_ids => ([], sent_ids)
  | e :: rest, sent_ids =>
    if deliverOk e then
      let r := deliverLoop deliverOk rest (insert (stable_id e) sent_ids)
      (e :: r.1, r.2)
    else
      deliverLoop deliverOk rest sent_ids

/-- Python exception classes relevant to main.py, with their position in the
class hierarchy: SystemExit and KeyboardInterrupt derive from BaseException
but not from Exception. -/
inductive PyError where
  | systemExit (msg : String)
  | keyboardInterrupt
  | exception (msg : String)
deriving DecidableEq, Repr

/-- Whether an except Exception clause catches this error: true exactly for
subclasses of Exception, which SystemExit and KeyboardInterrupt are not. -/
def PyError.isExceptionClass : PyError → Bool
  | .systemExit _ => false
  | .keyboardInterrupt => false
  | .exception _ => true

/-- The observable outcome of one completed send_updates run: the new entries
in the order their deliveries were attempted, the successfully delivered
entries in order, and the list written to the state file when one was. -/
structure RunOutcome where
  attempted : List FeedEntry
  delivered : List FeedEntry
  savedState : Option (List String)
deriving DecidableEq, Repr

/-- send_updates from main.py: raise SystemExit when the webhook or the feed
URL is blank; load the sent state; fetch and filter the new entries; return
early without writing when there are none; otherwise attempt each delivery in
order and write the updated state back unconditionally. -/
def send_updates (MAX_POSTS : Nat) (deliverOk : FeedEntry → Bool)
    (discord_webhook feed_url : String) (state_file : StateFile)
    (feedEntries : List FeedEntry) : Except PyError RunOutcome :=
  if discord_webhook = "" then
    .error (.systemExit "Discord webhook URL is not set in .env")
  else if feed_url = "" then
    .error (.systemExit "Feed URL is not set in .env")
  else
    let sent_ids := load_sent state_file
    let new_entries := fetch_new_entries MAX_POSTS feedEntries sent_ids
    if new_entries = [] then
      .ok ⟨[], [], none⟩
    else
      let r := deliverLoop deliverOk new_entries sent_ids
      .ok ⟨new_entries, r.1, some (save_sent r.2)⟩

/-! ## Job coordinator: main. -/

/-- One configured job: webhook endpoint, feed URL, state file, and the feed
content that the feed URL currently serves. -/
structure Job where
  webhook : String
  feedUrl : String
  file : StateFile
  feed : List FeedEntry
deriving DecidableEq, Repr

/-- The pipeline outcome of a single job. -/
def runJob (MAX_POSTS : Nat) (deliverOk : FeedEntry → Bool) (j : Job) :
    Except PyError RunOutcome :=
  send_updates MAX_POSTS deliverOk j.webhook j.feedUrl j.file j.feed

/-- The pipelines of all jobs: the thread pool runs every submitted job to
completion regardless of how the coordinator handles the results, because
exiting the executor context waits for all workers. -/
def runJobs (MAX_POSTS : Nat) (deliverOk : FeedEntry → Bool) (jobs : List Job) :
    List (Except PyError RunOutcome) :=
  jobs.map (runJob MAX_POSTS deliverOk)

/-- The coordinator result loop in main: future.result() re-raises the error
of a job; except KeyboardInterrupt re-raises after logging, except Exception logs
and continues, and any other BaseException, in particular SystemExit,
propagates out of main. -/
def collectResults : List (Except PyError RunOutcome) → Except PyError Unit
  | [] => .ok ()
  | .ok _ :: rest => collectResults rest
  | .error err :: rest =>
    if err.isExceptionClass then collectResults rest
    else .error err

/-- main from main.py over an arbitrary job list: run every pipeline, then
collect results in submission order. A .ok () value is the normal process
exit; a .error value is an uncaught BaseException terminating the process
with a nonzero exit status. -/
def main_model (MAX_POSTS : Nat) (deliverOk : FeedEntry → Bool) (jobs : List Job) :
    Except PyError Unit :=
  collectResults (runJobs MAX_POSTS deliverOk jobs)

/-! ## Characterization lemmas about the pipeline. -/

theorem deliverLoop_fst (deliverOk : FeedEntry → Bool) :
    ∀ (l : List FeedEntry) (s : Finset String),
      (deliverLoop deliverOk l s).1 = l.filter deliverOk
  | [], _ => rfl
  | e :: rest, s => by
    cases h : deliverOk e <;>
      simp [deliverLoop, h, List.filter_cons, deliverLoop_fst deliverOk rest]

theorem deliverLoop_snd (deliverOk : FeedEntry → Bool) :
    ∀ (l : List FeedEntry) (s : Finset String),
      (deliverLoop deliverOk l s).2 =
        s ∪ ((l.filter deliverOk).map stable_id).toFinset
  | [], s => by simp [deliverLoop]
  | e :: rest, s => by
    cases h : deliverOk e
    · simp [deliverLoop, h, List.filter_cons, deliverLoop_snd deliverOk rest]
    · simp only [deliverLoop, h, if_true, List.filter_cons, List.map_cons,
        List.toFinset_cons, deliverLoop_snd deliverOk rest]
      ext a
      simp only [Finset.mem_union, Finset.mem_insert, List.mem_toFinset]
      tauto

theorem mem_fetch_new_entries {m : Nat} {feed : List FeedEntry}
    {s : Finset String} {e : FeedEntry} :
    e ∈ fetch_new_entries m feed s ↔ e ∈ feed.take m ∧ stable_id e ∉ s := by
  simp [fetch_new_entries, List.mem_reverse, List.mem_filter]

theorem send_updates_of_no_new {m : Nat} {deliverOk : FeedEntry → Bool}
    {w f : String} {file : StateFile} {feed : List FeedEntry}
    (hw : w ≠ "") (hf : f ≠ "")
    (hempty : fetch_new_entries m feed (load_sent file) = []) :
    send_updates m deliverOk w f file feed = .ok ⟨[], [], none⟩ := by
  simp [send_updates, hw, hf, hempty]

theorem send_updates_of_new {m : Nat} {deliverOk : FeedEntry → Bool}
    {w f : String} {file : StateFile} {feed : List FeedEntry}
    (hw : w ≠ "") (hf : f ≠ "")
    (hne : fetch_new_entries m feed (load_sent file) ≠ []) :
    send_updates m deliverOk w f file feed =
      .ok ⟨fetch_new_entries m feed (load_sent file),
           (fetch_new_entries m feed (load_sent file)).filter deliverOk,
           some (save_sent (load_sent file ∪
             (((fetch_new_entries m feed (load_sent file)).filter deliverOk).map
               stable_id).toFinset))⟩ := by
  simp [send_updates, hw, hf, hne, deliverLoop_fst, deliverLoop_snd]

theorem load_updateFile_some (file : StateFile) (l : List String) :
    load_sent (updateFile file (some l)) = l.toFinset := rfl

theorem load_sent_save_sent (file : StateFile) (s : Finset String) :
    load_sent (updateFile file (some (save_sent s))) = s := by
  rw [load_updateFile_some]
  exact pySorted_val_toFinset s

/-! ## Claim theorems. -/

theorem stable_id_of_providerId {e : FeedEntry} {s : String}
    (h : providerId e = some s) : stable_id e = s := by
  simp only [providerId, stable_id] at h ⊢
  split at h
  · next hg => rw [if_pos hg, h]; rfl
  · exact absurd h (by simp)

theorem stable_id_of_no_providerId {e : FeedEntry} (h : providerId e = none) :
    stable_id e =
      sha256hex (utf8Bytes (e.title.getD "" ++ "|" ++ e.link.getD "")) := by
  simp only [providerId, stable_id] at h ⊢
  split at h
  · next hg =>
    exfalso
    cases hv : pyOr e.id e.guid with
    | none => rw [hv] at hg; exact absurd hg (by simp [optTruthy])
    | some t => rw [hv] at h; exact Option.noConfusion h
  · next hg => rw [if_neg hg]

/-- C2: the entry identity is a total deterministic function; two entries with
the same non-empty provider id get the same identity, and an entry without a
provider id gets the hex SHA-256 of the UTF-8 bytes of title + "|" + link with
the empty string standing in for a missing title or link, so its identity
depends only on (title, link). -/
theorem C2_entry_identity :
    (∀ (e1 e2 : FeedEntry) (s : String),
        providerId e1 = some s → providerId e2 = some s →
        stable_id e1 = stable_id e2) ∧
    (∀ e : FeedEntry, providerId e = none →
        stable_id e =
          sha256hex (utf8Bytes (e.title.getD "" ++ "|" ++ e.link.getD ""))) ∧
    (∀ e1 e2 : FeedEntry, providerId e1 = none → providerId e2 = none →
        e1.title.getD "" = e2.title.getD "" → e1.link.getD "" = e2.link.getD "" →
        stable_id e1 = stable_id e2) := by
  refine ⟨fun e1 e2 s h1 h2 => ?_, fun e h => stable_id_of_no_providerId h,
    fun e1 e2 h1 h2 ht hl => ?_⟩
  · rw [stable_id_of_providerId h1, stable_id_of_providerId h2]
  · rw [stable_id_of_no_providerId h1, stable_id_of_no_providerId h2, ht, hl]

/-- Witness for C2 at concrete entries: equal provider ids, one carried in the
id field and one in the guid field behind an empty id, give equal identities;
and two id-less entries agreeing on title and link give equal identities. -/
theorem C2_entry_identity_witness :
    stable_id ⟨some "guid9", none, some "Title A", some "link-a", none, none⟩ =
      stable_id ⟨some "", some "guid9", some "Title B", some "link-b", some "2024", none⟩ ∧
    stable_id ⟨none, none, some "T", some "L", some "2024", none⟩ =
      stable_id ⟨some "", none, some "T", some "L", none, some "u"⟩ :=
  ⟨C2_entry_identity.1 _ _ "guid9" (by rfl) (by rfl),
   C2_entry_identity.2.2 _ _ (by rfl) (by rfl) rfl rfl⟩

/-- C7: loading the sent state from an absent or unparsable file yields the
empty set and never fails (load_sent is a total function into Finset), and the
pipeline run on an unparsable state file is identical to a run with no state
file at all, as if no entries were ever sent. -/
theorem C7_state_load_totality :
    load_sent .absent = ∅ ∧ load_sent .unparsable = ∅ ∧
    ∀ (m : Nat) (deliverOk : FeedEntry → Bool) (w f : String)
      (feed : List FeedEntry),
      send_updates m deliverOk w f .unparsable feed =
        send_updates m deliverOk w f .absent feed :=
  ⟨rfl, rfl, fun _ _ _ _ _ => rfl⟩

/-- C10: saving a set of identity strings and loading the result returns
exactly that set; serializing to a sorted unique list loses no element and
adds none. -/
theorem C10_save_load_roundtrip :
    ∀ s : Finset String, load_sent (.parsed (some (save_sent s))) = s :=
  fun s => pySorted_val_toFinset s

/-- C8: only the first MAX_POSTS entries in feed order are ever considered:
fetch_new_entries is unchanged by truncating the feed to those entries, and
every entry it returns comes from them. -/
theorem C8_truncation_before_filtering :
    ∀ (m : Nat) (feed : List FeedEntry) (sent : Finset String),
      fetch_new_entries m feed sent = fetch_new_entries m (feed.take m) sent ∧
      ∀ e : FeedEntry, e ∈ fetch_new_entries m feed sent → e ∈ feed.take m := by
  intro m feed sent
  refine ⟨?_, fun e he => (mem_fetch_new_entries.mp he).1⟩
  simp [fetch_new_entries, List.take_take]

/-- Witness for C8: in a 10-entry feed with MAX_POSTS = 5, an entry returned
by the fetch (here the fifth) is among the first five entries of the feed. -/
theorem C8_truncation_before_filtering_witness :
    (⟨some "a05", none, none, none, none, none⟩ : FeedEntry) ∈
      ([⟨some "a01", none, none, none, none, none⟩,
        ⟨some "a02", none, none, none, none, none⟩,
        ⟨some "a03", none, none, none, none, none⟩,
        ⟨some "a04", none, none, none, none, none⟩,
        ⟨some "a05", none, none, none, none, none⟩,
        ⟨some "a06", none, none, none, none, none⟩,
        ⟨some "a07", none, none, none, none, none⟩,
        ⟨some "a08", none, none, none, none, none⟩,
        ⟨some "a09", none, none, none, none, none⟩,
        ⟨some "a10", none, none, none, none, none⟩] : List FeedEntry).take 5 :=
  (C8_truncation_before_filtering 5
      [⟨some "a01", none, none, none, none, none⟩,
       ⟨some "a02", none, none, none, none, none⟩,
       ⟨some "a03", none, none, none, none, none⟩,
       ⟨some "a04", none, none, none, none, none⟩,
       ⟨some "a05", none, none, none, none, none⟩,
       ⟨some "a06", none, none, none, none, none⟩,
       ⟨some "a07", none, none, none, none, none⟩,
       ⟨some "a08", none, none, none, none, none⟩,
       ⟨some "a09", none, none, none, none, none⟩,
       ⟨some "a10", none, none, none, none, none⟩] ∅).2 _ (by decide)

theorem fetch_new_entries_eq (m : Nat) (feed : List FeedEntry)
    (s : Finset String) :
    fetch_new_entries m feed s =
      ((feed.take m).filter (fun e => decide (stable_id e ∉ s))).reverse := rfl

theorem attempted_of_send_updates {m : Nat} {deliverOk : FeedEntry → Bool}
    {w f : String} {file : StateFile} {feed : List FeedEntry} {out : RunOutcome}
    (hw : w ≠ "") (hf : f ≠ "")
    (hrun : send_updates m deliverOk w f file feed = .ok out) :
    out.attempted = fetch_new_entries m feed (load_sent file) := by
  by_cases h : fetch_new_entries m feed (load_sent file) = []
  · rw [send_updates_of_no_new hw hf h] at hrun
    cases hrun
    exact h.symm
  · rw [send_updates_of_new hw hf h] at hrun
    cases hrun
    rfl

/-- C5: the entries surviving the sent-state filter are attempted in the
reverse of the native feed order; in particular a feed [A, B, C] whose three
entries are all new is attempted in the order [C, B, A]. -/
theorem C5_delivery_ordering :
    (∀ (m : Nat) (deliverOk : FeedEntry → Bool) (w f : String)
        (file : StateFile) (feed : List FeedEntry) (out : RunOutcome),
        w ≠ "" → f ≠ "" →
        send_updates m deliverOk w f file feed = .ok out →
        out.attempted =
          ((feed.take m).filter
            (fun e => decide (stable_id e ∉ load_sent file))).reverse) ∧
    (∀ (m : Nat) (deliverOk : FeedEntry → Bool) (w f : String)
        (file : StateFile) (A B C : FeedEntry) (out : RunOutcome),
        3 ≤ m → w ≠ "" → f ≠ "" →
        stable_id A ∉ load_sent file → stable_id B ∉ load_sent file →
        stable_id C ∉ load_sent file →
        send_updates m deliverOk w f file [A, B, C] = .ok out →
        out.attempted = [C, B, A]) := by
  constructor
  · intro m deliverOk w f file feed out hw hf hrun
    rw [attempted_of_send_updates hw hf hrun, fetch_new_entries_eq]
  · intro m deliverOk w f file A B C out hm hw hf hA hB hC hrun
    rw [attempted_of_send_updates hw hf hrun, fetch_new_entries_eq]
    have htake : ([A, B, C].take m) = [A, B, C] :=
      List.take_of_length_le (by simp; omega)
    rw [htake]
    have hfil : ([A, B, C].filter
        (fun e => decide (stable_id e ∉ load_sent file))) = [A, B, C] := by
      apply List.filter_eq_self.mpr
      intro a ha
      simp only [List.mem_cons, List.not_mem_nil, or_false] at ha
      rcases ha with rfl | rfl | rfl
      · exact decide_eq_true hA
      · exact decide_eq_true hB
      · exact decide_eq_true hC
    rw [hfil]
    rfl

/-- Witness for C5: a three-entry feed, all new against an absent state file,
is attempted in the order third, second, first. -/
theorem C5_delivery_ordering_witness :
    (⟨[⟨some "cC", none, none, none, none, none⟩,
       ⟨some "cB", none, none, none, none, none⟩,
       ⟨some "cA", none, none, none, none, none⟩],
      [⟨some "cC", none, none, none, none, none⟩,
       ⟨some "cB", none, none, none, none, none⟩,
       ⟨some "cA", none, none, none, none, none⟩],
      some ["cA", "cB", "cC"]⟩ : RunOutcome).attempted =
      [⟨some "cC", none, none, none, none, none⟩,
       ⟨some "cB", none, none, none, none, none⟩,
       ⟨some "cA", none, none, none, none, none⟩] :=
  C5_delivery_ordering.2 5 (fun _ => true) "h" "u" .absent
    ⟨some "cA", none, none, none, none, none⟩
    ⟨some "cB", none, none, none, none, none⟩
    ⟨some "cC", none, none, none, none, none⟩
    _ (by decide) (by decide) (by decide) (by decide) (by decide) (by decide)
    (by rfl)

/-- C1: idempotence of the pipeline. If a run succeeds, every delivery in it
succeeds, and its state is persisted, then a second run over the unchanged
feed content and the persisted state delivers zero entries, whatever the
delivery outcomes of the second run would be. When the first run found nothing new
it writes nothing, and the unchanged state file yields the same empty second
run. -/
theorem C1_second_run_delivers_nothing
    (m : Nat) (deliverOk deliverOk2 : FeedEntry → Bool) (w f : String)
    (file : StateFile) (feed : List FeedEntry) (out : RunOutcome)
    (hw : w ≠ "") (hf : f ≠ "")
    (hrun : send_updates m deliverOk w f file feed = .ok out)
    (hall : ∀ e ∈ out.attempted, deliverOk e = true) :
    send_updates m deliverOk2 w f (updateFile file out.savedState) feed =
      .ok ⟨[], [], none⟩ := by
  by_cases h : fetch_new_entries m feed (load_sent file) = []
  · rw [send_updates_of_no_new hw hf h] at hrun
    cases hrun
    exact send_updates_of_no_new hw hf h
  · rw [send_updates_of_new hw hf h] at hrun
    cases hrun
    simp only at hall ⊢
    have hfil : (fetch_new_entries m feed (load_sent file)).filter deliverOk =
        fetch_new_entries m feed (load_sent file) :=
      List.filter_eq_self.mpr hall
    apply send_updates_of_no_new hw hf
    rw [hfil, load_sent_save_sent, fetch_new_entries_eq, List.reverse_eq_nil_iff]
    apply List.filter_eq_nil_iff.mpr
    intro a ha
    simp only [decide_eq_true_eq, Decidable.not_not, Finset.mem_union]
    by_cases hmem : stable_id a ∈ load_sent file
    · exact Or.inl hmem
    · refine Or.inr ?_
      rw [List.mem_toFinset]
      exact List.mem_map_of_mem stable_id (mem_fetch_new_entries.mpr ⟨ha, hmem⟩)

/-- Witness for C1: a first run over two fresh entries succeeds everywhere and
persists both ids; the second run over the same feed and the persisted state
delivers nothing, even with an oracle that would fail every delivery. -/
theorem C1_second_run_delivers_nothing_witness :
    send_updates 5 (fun _ => false) "h" "u"
      (updateFile .absent
        ((⟨[⟨some "id2", none, none, none, none, none⟩,
            ⟨some "id1", none, none, none, none, none⟩],
           [⟨some "id2", none, none, none, none, none⟩,
            ⟨some "id1", none, none, none, none, none⟩],
           some ["id1", "id2"]⟩ : RunOutcome)).savedState)
      [⟨some "id1", none, none, none, none, none⟩,
       ⟨some "id2", none, none, none, none, none⟩] =
      .ok ⟨[], [], none⟩ :=
  C1_second_run_delivers_nothing 5 (fun _ => true) (fun _ => false) "h" "u"
    .absent
    [⟨some "id1", none, none, none, none, none⟩,
     ⟨some "id2", none, none, none, none, none⟩]
    ⟨[⟨some "id2", none, none, none, none, none⟩,
      ⟨some "id1", none, none, none, none, none⟩],
     [⟨some "id2", none, none, none, none, none⟩,
      ⟨some "id1", none, none, none, none, none⟩],
     some ["id1", "id2"]⟩
    (by decide) (by decide) (by rfl) (by decide)

theorem save_sent_toFinset (s : Finset String) : (save_sent s).toFinset = s :=
  pySorted_val_toFinset s

/-- C3: when the delivery of one entry fails and no other successful entry in
the batch shares its identity, the entry is not among the delivered ones, its
identity is withheld from any persisted state, the loop still delivers every
successful entry of the batch, and the failed entry shows up again in the next
run against the same feed content. -/
theorem C3_delivery_failure_handling
    (m : Nat) (deliverOk : FeedEntry → Bool) (w f : String)
    (file : StateFile) (feed : List FeedEntry) (out : RunOutcome) (e : FeedEntry)
    (hw : w ≠ "") (hf : f ≠ "")
    (hrun : send_updates m deliverOk w f file feed = .ok out)
    (he : e ∈ out.attempted) (hfail : deliverOk e = false)
    (hfresh : stable_id e ∉ load_sent file)
    (hnoshare : ∀ e2 ∈ out.attempted, deliverOk e2 = true →
      stable_id e2 ≠ stable_id e) :
    e ∉ out.delivered ∧
    (∀ e2 ∈ out.attempted, deliverOk e2 = true → e2 ∈ out.delivered) ∧
    (∀ l, out.savedState = some l → stable_id e ∉ l.toFinset) ∧
    e ∈ fetch_new_entries m feed (load_sent (updateFile file out.savedState)) := by
  by_cases h : fetch_new_entries m feed (load_sent file) = []
  · rw [send_updates_of_no_new hw hf h] at hrun
    cases hrun
    exact absurd he (List.not_mem_nil e)
  · rw [send_updates_of_new hw hf h] at hrun
    cases hrun
    simp only at he hnoshare ⊢
    have hsaved : stable_id e ∉
        load_sent file ∪
          (((fetch_new_entries m feed (load_sent file)).filter
            deliverOk).map stable_id).toFinset := by
      rw [Finset.mem_union]
      rintro (hc | hc)
      · exact hfresh hc
      · rw [List.mem_toFinset] at hc
        rcases List.mem_map.mp hc with ⟨e2, he2, hid⟩
        rcases List.mem_filter.mp he2 with ⟨he2m, he2ok⟩
        exact hnoshare e2 he2m he2ok hid
    refine ⟨?_, ?_, ?_, ?_⟩
    · intro hc
      rcases List.mem_filter.mp hc with ⟨_, hok⟩
      rw [hfail] at hok
      exact Bool.false_ne_true hok
    · intro e2 he2 hok
      exact List.mem_filter.mpr ⟨he2, hok⟩
    · intro l hl
      cases hl
      rw [save_sent_toFinset]
      exact hsaved
    · rw [load_sent_save_sent]
      exact mem_fetch_new_entries.mpr
        ⟨(mem_fetch_new_entries.mp he).1, hsaved⟩

/-- Witness for C3: in a two-entry batch where only the entry with id x2 is
deliverable, the x1 entry is undelivered, x2 is still delivered, x1 is absent
from the persisted list, and x1 is fetched again on the next run. -/
theorem C3_delivery_failure_handling_witness :
    (⟨some "x1", none, none, none, none, none⟩ : FeedEntry) ∉
      (⟨[⟨some "x2", none, none, none, none, none⟩,
         ⟨some "x1", none, none, none, none, none⟩],
        [⟨some "x2", none, none, none, none, none⟩],
        some ["x2"]⟩ : RunOutcome).delivered ∧
    (∀ e2 ∈ (⟨[⟨some "x2", none, none, none, none, none⟩,
         ⟨some "x1", none, none, none, none, none⟩],
        [⟨some "x2", none, none, none, none, none⟩],
        some ["x2"]⟩ : RunOutcome).attempted,
      (fun ent => decide (ent.id = some "x2")) e2 = true →
      e2 ∈ (⟨[⟨some "x2", none, none, none, none, none⟩,
         ⟨some "x1", none, none, none, none, none⟩],
        [⟨some "x2", none, none, none, none, none⟩],
        some ["x2"]⟩ : RunOutcome).delivered) ∧
    (∀ l, (⟨[⟨some "x2", none, none, none, none, none⟩,
         ⟨some "x1", none, none, none, none, none⟩],
        [⟨some "x2", none, none, none, none, none⟩],
        some ["x2"]⟩ : RunOutcome).savedState = some l →
      stable_id ⟨some "x1", none, none, none, none, none⟩ ∉ l.toFinset) ∧
    (⟨some "x1", none, none, none, none, none⟩ : FeedEntry) ∈
      fetch_new_entries 5
        [⟨some "x1", none, none, none, none, none⟩,
         ⟨some "x2", none, none, none, none, none⟩]
        (load_sent (updateFile .absent
          (⟨[⟨some "x2", none, none, none, none, none⟩,
             ⟨some "x1", none, none, none, none, none⟩],
            [⟨some "x2", none, none, none, none, none⟩],
            some ["x2"]⟩ : RunOutcome).savedState)) :=
  C3_delivery_failure_handling 5 (fun ent => decide (ent.id = some "x2"))
    "h" "u" .absent
    [⟨some "x1", none, none, none, none, none⟩,
     ⟨some "x2", none, none, none, none, none⟩]
    ⟨[⟨some "x2", none, none, none, none, none⟩,
      ⟨some "x1", none, none, none, none, none⟩],
     [⟨some "x2", none, none, none, none, none⟩],
     some ["x2"]⟩
    ⟨some "x1", none, none, none, none, none⟩
    (by decide) (by decide) (by rfl) (by decide) (by decide) (by decide)
    (by decide)

/-- C4: after a non-empty batch has been attempted, the delivered entries are
exactly the successful ones, and the state written back is the loaded
sent-state united with the identities of exactly the delivered entries; the
next load returns that union. -/
theorem C4_persisted_state_union
    (m : Nat) (deliverOk : FeedEntry → Bool) (w f : String)
    (file : StateFile) (feed : List FeedEntry) (out : RunOutcome)
    (hw : w ≠ "") (hf : f ≠ "")
    (hrun : send_updates m deliverOk w f file feed = .ok out)
    (hne : out.attempted ≠ []) :
    out.delivered = out.attempted.filter deliverOk ∧
    out.savedState =
      some (save_sent
        (load_sent file ∪ (out.delivered.map stable_id).toFinset)) ∧
    load_sent (updateFile file out.savedState) =
      load_sent file ∪ (out.delivered.map stable_id).toFinset := by
  by_cases h : fetch_new_entries m feed (load_sent file) = []
  · rw [send_updates_of_no_new hw hf h] at hrun
    cases hrun
    exact absurd rfl hne
  · rw [send_updates_of_new hw hf h] at hrun
    cases hrun
    refine ⟨rfl, rfl, ?_⟩
    exact load_sent_save_sent _ _

/-- The outcome of the C4 example run: feed ids g1 g2 g3, prior state having
g1, both new entries delivered. -/
def c4out : RunOutcome :=
  ⟨[⟨some "g3", none, none, none, none, none⟩,
    ⟨some "g2", none, none, none, none, none⟩],
   [⟨some "g3", none, none, none, none, none⟩,
    ⟨some "g2", none, none, none, none, none⟩],
   some ["g1", "g2", "g3"]⟩

/-- The feed of the C4 example run. -/
def c4feed : List FeedEntry :=
  [⟨some "g1", none, none, none, none, none⟩,
   ⟨some "g2", none, none, none, none, none⟩,
   ⟨some "g3", none, none, none, none, none⟩]

/-- Witness for C4, the spec scenario: feed ids g1 g2 g3, sent-state holding
g1, both new entries delivered successfully, persisted state g1 g2 g3. -/
theorem C4_persisted_state_union_witness :
    (c4out.delivered = c4out.attempted.filter (fun _ => true) ∧
     c4out.savedState =
       some (save_sent (load_sent (.parsed (some ["g1"])) ∪
         (c4out.delivered.map stable_id).toFinset)) ∧
     load_sent (updateFile (.parsed (some ["g1"])) c4out.savedState) =
       load_sent (.parsed (some ["g1"])) ∪
         (c4out.delivered.map stable_id).toFinset) ∧
    save_sent (load_sent (.parsed (some ["g1"])) ∪
      (c4out.delivered.map stable_id).toFinset) = ["g1", "g2", "g3"] :=
  ⟨C4_persisted_state_union 5 (fun _ => true) "h" "u" (.parsed (some ["g1"]))
    c4feed c4out (by decide) (by decide) (by rfl) (by decide), by decide⟩

/-- Counterexample for C6: with a blank webhook in job 1 and a healthy job 2,
main terminates with an uncaught SystemExit (nonzero exit status), not a
normal exit, even though the pipeline of job 2 completes. The configuration error
is not caught by the except Exception handler of the coordinator, because
SystemExit is not a subclass of Exception. -/
theorem C6_config_error_counterexample :
    main_model 5 (fun _ => true)
      [⟨"", "http://feed1", .absent, []⟩,
       ⟨"http://hook2", "http://feed2", .absent, []⟩] =
      .error (.systemExit "Discord webhook URL is not set in .env") ∧
    runJobs 5 (fun _ => true)
      [⟨"", "http://feed1", .absent, []⟩,
       ⟨"http://hook2", "http://feed2", .absent, []⟩] =
      [.error (.systemExit "Discord webhook URL is not set in .env"),
       .ok ⟨[], [], none⟩] ∧
    main_model 5 (fun _ => true)
      [⟨"", "http://feed1", .absent, []⟩,
       ⟨"http://hook2", "http://feed2", .absent, []⟩] ≠ .ok () := by
  have h1 : main_model 5 (fun _ => true)
      [⟨"", "http://feed1", .absent, []⟩,
       ⟨"http://hook2", "http://feed2", .absent, []⟩] =
      .error (.systemExit "Discord webhook URL is not set in .env") := rfl
  refine ⟨h1, rfl, ?_⟩
  intro hc
  rw [h1] at hc
  exact Except.noConfusion hc

/-- Whenever its webhook or feed URL is blank, a job raises SystemExit. -/
theorem runJob_systemExit_of_blank (m : Nat) (deliverOk : FeedEntry → Bool)
    (j : Job) (hblank : j.webhook = "" ∨ j.feedUrl = "") :
    ∃ msg, runJob m deliverOk j = .error (.systemExit msg) := by
  rcases hblank with hb | hb
  · exact ⟨"Discord webhook URL is not set in .env",
      by simp [runJob, send_updates, hb]⟩
  · by_cases hw : j.webhook = ""
    · exact ⟨"Discord webhook URL is not set in .env",
        by simp [runJob, send_updates, hw]⟩
    · exact ⟨"Feed URL is not set in .env",
        by simp [runJob, send_updates, hw, hb]⟩

/-- The only errors a pipeline run can surface are SystemExit ones: delivery
failures are swallowed inside the loop, so send_updates either completes or
raises SystemExit on blank configuration. -/
theorem send_updates_ok_or_systemExit (m : Nat) (deliverOk : FeedEntry → Bool)
    (w f : String) (file : StateFile) (feed : List FeedEntry) :
    (∃ out, send_updates m deliverOk w f file feed = .ok out) ∨
    (∃ msg, send_updates m deliverOk w f file feed =
      .error (.systemExit msg)) := by
  by_cases hw : w = ""
  · exact Or.inr ⟨"Discord webhook URL is not set in .env",
      by simp [send_updates, hw]⟩
  · by_cases hf : f = ""
    · exact Or.inr ⟨"Feed URL is not set in .env",
        by simp [send_updates, hw, hf]⟩
    · by_cases h : fetch_new_entries m feed (load_sent file) = []
      · exact Or.inl ⟨_, send_updates_of_no_new hw hf h⟩
      · exact Or.inl ⟨_, send_updates_of_new hw hf h⟩

/-- C6 as amended: a job with a blank webhook or feed URL, at any position in
the configured job list, raises SystemExit; every job pipeline still runs to
completion with its own outcome (the executor waits for all of them), but the
SystemExit escapes the except Exception handler of the coordinator, so main
propagates it and the process exits with a nonzero status. -/
theorem C6_config_error_amended
    (m : Nat) (deliverOk : FeedEntry → Bool) :
    ∀ (jobs : List Job) (j : Job), j ∈ jobs →
    (j.webhook = "" ∨ j.feedUrl = "") →
    (∃ msg, main_model m deliverOk jobs = .error (.systemExit msg)) ∧
    runJobs m deliverOk jobs = jobs.map (runJob m deliverOk) := by
  intro jobs
  induction jobs with
  | nil => exact fun j hj _ => absurd hj (List.not_mem_nil j)
  | cons j0 rest ih =>
    intro j hj hblank
    refine ⟨?_, rfl⟩
    have hcons : main_model m deliverOk (j0 :: rest) =
        collectResults (runJob m deliverOk j0 :: runJobs m deliverOk rest) :=
      rfl
    rcases List.mem_cons.mp hj with rfl | hmem
    · rcases runJob_systemExit_of_blank m deliverOk j hblank with ⟨msg, hmsg⟩
      refine ⟨msg, ?_⟩
      rw [hcons, hmsg]
      simp [collectResults, PyError.isExceptionClass]
    · rcases send_updates_ok_or_systemExit m deliverOk j0.webhook j0.feedUrl
          j0.file j0.feed with ⟨out, hout⟩ | ⟨msg0, hmsg0⟩
      · rcases (ih j hmem hblank).1 with ⟨msg, hmsg⟩
        refine ⟨msg, ?_⟩
        rw [hcons, show runJob m deliverOk j0 = .ok out from hout]
        exact hmsg
      · refine ⟨msg0, ?_⟩
        rw [hcons, show runJob m deliverOk j0 = .error (.systemExit msg0)
          from hmsg0]
        simp [collectResults, PyError.isExceptionClass]

/-- Witness for the amended C6: a healthy first job and a second job whose
feed URL is blank; main still ends in SystemExit while both pipelines ran. -/
theorem C6_config_error_amended_witness :
    (∃ msg, main_model 5 (fun _ => true)
      [⟨"http://hook1", "http://feed1", .absent, []⟩,
       ⟨"http://hook2", "", .absent, []⟩] =
      .error (.systemExit msg)) ∧
    runJobs 5 (fun _ => true)
      [⟨"http://hook1", "http://feed1", .absent, []⟩,
       ⟨"http://hook2", "", .absent, []⟩] =
      [⟨"http://hook1", "http://feed1", .absent, []⟩,
       ⟨"http://hook2", "", .absent, []⟩].map (runJob 5 (fun _ => true)) :=
  C6_config_error_amended 5 (fun _ => true)
    [⟨"http://hook1", "http://feed1", .absent, []⟩,
     ⟨"http://hook2", "", .absent, []⟩]
    ⟨"http://hook2", "", .absent, []⟩
    (by decide) (Or.inr rfl)

/-- An entry with no truthy provider id or guid, no title and no link. -/
def degenerateEntry (e : FeedEntry) : Prop :=
  optTruthy (pyOr e.id e.guid) = false ∧
  e.title.getD "" = "" ∧ e.link.getD "" = ""

/-- C9 as amended: every degenerate entry gets the same valid identity, the
SHA-256 of the single byte of "|"; and within one fetched batch every such
entry that fits in the truncation and whose delivery succeeds is delivered
when the shared identity is not in the prior state, not only the first one,
because the filter never updates sent_ids during the scan. -/
theorem C9_degenerate_identity_amended :
    (∀ e : FeedEntry, degenerateEntry e →
        stable_id e = sha256hex (utf8Bytes "|")) ∧
    (∀ (m : Nat) (deliverOk : FeedEntry → Bool) (w f : String)
        (file : StateFile) (feed : List FeedEntry) (e : FeedEntry)
        (out : RunOutcome),
        w ≠ "" → f ≠ "" → degenerateEntry e → e ∈ feed.take m →
        sha256hex (utf8Bytes "|") ∉ load_sent file →
        deliverOk e = true →
        send_updates m deliverOk w f file feed = .ok out →
        e ∈ out.delivered) := by
  have hid : ∀ e : FeedEntry, degenerateEntry e →
      stable_id e = sha256hex (utf8Bytes "|") := by
    rintro e ⟨h1, h2, h3⟩
    simp only [stable_id, h1, Bool.false_eq_true, if_false]
    rw [h2, h3]
    rfl
  refine ⟨hid, ?_⟩
  intro m deliverOk w f file feed e out hw hf hdeg hmem hfresh hok hrun
  have hein : e ∈ fetch_new_entries m feed (load_sent file) :=
    mem_fetch_new_entries.mpr ⟨hmem, by rw [hid e hdeg]; exact hfresh⟩
  have hne : fetch_new_entries m feed (load_sent file) ≠ [] := by
    intro hnil
    rw [hnil] at hein
    exact List.not_mem_nil e hein
  rw [send_updates_of_new hw hf hne] at hrun
  cases hrun
  exact List.mem_filter.mpr ⟨hein, hok⟩

/-- Counterexample for C9 as stated: two distinct degenerate entries in one
two-entry batch share one identity, yet both are delivered in a single run,
not only the first one in the batch. -/
theorem C9_only_first_delivered_counterexample :
    (send_updates 5 (fun _ => true) "h" "u" .absent
        [⟨none, none, none, none, some "p1", none⟩,
         ⟨none, none, none, none, some "p2", none⟩]).map RunOutcome.delivered =
      .ok [⟨none, none, none, none, some "p2", none⟩,
           ⟨none, none, none, none, some "p1", none⟩] ∧
    stable_id ⟨none, none, none, none, some "p1", none⟩ =
      stable_id ⟨none, none, none, none, some "p2", none⟩ ∧
    (⟨none, none, none, none, some "p1", none⟩ : FeedEntry) ≠
      ⟨none, none, none, none, some "p2", none⟩ :=
  ⟨rfl, rfl, by decide⟩

/-- Witness for the amended C9: a degenerate entry hashes to the SHA-256 of
"|", and the second degenerate entry of a two-entry batch is delivered. -/
theorem C9_degenerate_identity_amended_witness :
    stable_id (⟨none, none, none, none, some "p1", none⟩ : FeedEntry) =
      sha256hex (utf8Bytes "|") ∧
    (⟨none, none, none, none, some "p2", none⟩ : FeedEntry) ∈
      (⟨[⟨none, none, none, none, some "p2", none⟩,
         ⟨none, none, none, none, some "p1", none⟩],
        [⟨none, none, none, none, some "p2", none⟩,
         ⟨none, none, none, none, some "p1", none⟩],
        some ["cbe5cfdf7c2118a9c3d78ef1d684f3afa089201352886449a06a6511cfef74a7"]⟩ :
        RunOutcome).delivered :=
  ⟨C9_degenerate_identity_amended.1 _ ⟨rfl, rfl, rfl⟩,
   C9_degenerate_identity_amended.2 5 (fun _ => true) "h" "u" .absent
     [⟨none, none, none, none, some "p1", none⟩,
      ⟨none, none, none, none, some "p2", none⟩]
     ⟨none, none, none, none, some "p2", none⟩
     ⟨[⟨none, none, none, none, some "p2", none⟩,
       ⟨none, none, none, none, some "p1", none⟩],
      [⟨none, none, none, none, some "p2", none⟩,
       ⟨none, none, none, none, some "p1", none⟩],
      some ["cbe5cfdf7c2118a9c3d78ef1d684f3afa089201352886449a06a6511cfef74a7"]⟩
     (by decide) (by decide) ⟨rfl, rfl, rfl⟩ (by decide)
     (Finset.not_mem_empty _) rfl (by rfl)⟩
